import Mathlib

/-
Verification of the per-chain monitoring engine (src/src/monitor/monitor.ts).

The embedding models the ChainMonitor and Monitor classes shallowly:
the asynchronous promise chains of the source are split into a request
phase (which issues the RPC call) and a continuation phase (which receives
the resolved result), state is passed explicitly, and the external
collaborators (ethers provider, repository service, bytecode decoder,
source fetcher) are abstracted as function-valued parameters. JavaScript
numbers holding block cursors are modelled as integers-or-NaN; the pacing
interval (a JS float) is modelled as a rational number.
-/

namespace Monitor

/-- JavaScript number as the monitor manipulates it for block cursors:
either NaN (produced by parseInt on a non-numeric string) or an integer. -/
inductive JSNum where
  | nan : JSNum
  | num : Int → JSNum
deriving DecidableEq

/-- Increment of a block cursor, mirroring JS `blockNumber++`:
NaN + 1 is NaN. -/
def JSNum.succ : JSNum → JSNum
  | .nan => .nan
  | .num n => .num (n + 1)

/-- Rendering of a JS number into an error message string. -/
def JSNum.toStr : JSNum → String
  | .nan => "NaN"
  | .num n => toString n

/-- JavaScript parseInt as used on the MONITOR_START_ override
(`parseInt(rawStartBlock)`): skip leading whitespace, read an optional
sign, parse the maximal run of leading decimal digits ignoring any
trailing characters, and produce NaN when no digit is found. -/
def parseIntJS (s : String) : JSNum :=
  let cs := s.data.dropWhile (fun c => c = ' ' ∨ c = '\t' ∨ c = '\n' ∨ c = '\r')
  let signAndRest : Int × List Char :=
    match cs with
    | '-' :: rest => (-1, rest)
    | '+' :: rest => (1, rest)
    | _ => (1, cs)
  let digits := signAndRest.2.takeWhile Char.isDigit
  if digits.isEmpty then JSNum.nan
  else JSNum.num (signAndRest.1 * (digits.foldl (fun a c => a * 10 + (c.toNat - 48)) 0 : Nat))

/-- Module-level pacing constants of monitor.ts (BLOCK_PAUSE_FACTOR,
BLOCK_PAUSE_UPPER_LIMIT, BLOCK_PAUSE_LOWER_LIMIT), read once from the
environment with defaults. -/
structure Config where
  blockPauseFactor : Rat
  blockPauseUpperLimit : Rat
  blockPauseLowerLimit : Rat
deriving DecidableEq

/-- Default values of the pacing constants: factor 1.1, upper limit
30000 ms, lower limit 500 ms. -/
def defaultConfig : Config :=
  { blockPauseFactor := 11 / 10
    blockPauseUpperLimit := 30000
    blockPauseLowerLimit := 500 }

/-- Argument of adaptBlockPause: the string union "increase" | "decrease". -/
inductive PauseOp where
  | increase : PauseOp
  | decrease : PauseOp
deriving DecidableEq

/-- ChainMonitor.adaptBlockPause: multiply the pause by the factor (or its
reciprocal), then clamp by Math.min with the upper limit followed by
Math.max with the lower limit. -/
def adaptBlockPause (cfg : Config) (getBlockPause : Rat) (operation : PauseOp) : Rat :=
  max
    (min
      (getBlockPause *
        (match operation with
          | PauseOp.increase => cfg.blockPauseFactor
          | PauseOp.decrease => 1 / cfg.blockPauseFactor))
      cfg.blockPauseUpperLimit)
    cfg.blockPauseLowerLimit

/-- Mutable per-chain state of a ChainMonitor: the chain id, the running
flag, whether a provider has been retained (this.provider), and the three
instance tunables. -/
structure ChainState where
  chainId : Nat
  running : Bool
  providerSet : Bool
  getBlockPause : Rat
  getBytecodeRetryPause : Rat
  initialGetBytecodeTries : Int
deriving DecidableEq

/-- Transaction as the monitor reads it: nullable destination (the field
named to in the source) and hash. -/
structure Tx where
  toField : Option String
  hash : String
deriving DecidableEq

/-- The createsContract predicate: truthiness of the negated destination,
i.e. the transaction has no destination. -/
def createsContract (tx : Tx) : Bool := tx.toField.isNone

/-- Block as the monitor reads it: the prefetched transaction list. -/
structure Blk where
  prefetchedTransactions : List Tx
deriving DecidableEq

/-- External collaborators of a ChainMonitor: address derivation
(ethers getCreateAddress), the repository lookup, the CBOR bytecode
decoder and the SourceAddress factory (both of which may throw). -/
structure Env where
  getCreateAddress : Tx → String
  checkByChainAndAddress : String → String → List Unit
  bytecodeDecode : String → Except String String
  fromCborData : String → Except String String

/-- Structured events fired on the SourcifyEventManager bus. -/
inductive Event where
  | started (chainId providerURL : String) (lastBlockNumber : Int) (startBlock : JSNum)
  | stopped (chainId : String)
  | cantStart (chainId message : String)
  | processingBlock (blockNumber : JSNum) (chainId : String) (getBlockPause : Rat)
  | newContract (address chainId : String)
  | alreadyVerified (address chainId : String)
  | errorProcessingBlock (message chainId : String) (blockNumber : JSNum)
  | errorProcessingBytecode (message chainId address : String)
  | errorGettingBytecode (message chainId address : String)
deriving DecidableEq

/-- Upward EventEmitter signals of a ChainMonitor. -/
inductive Signal where
  | contractAlreadyVerified (chainId : Nat) (address : String)
  | contractVerifiedSuccessfully (chainId : Nat) (address : String)
deriving DecidableEq

/-- RPC calls a ChainMonitor issues on its provider. -/
inductive Rpc where
  | getBlockNumber
  | getBlock (blockNumber : JSNum)
  | getCode (address : String)
deriving DecidableEq

/-- A pending setTimeout entry: which handler it will invoke, after which
timeout, with which arguments. -/
inductive Timer where
  | processBlockT (timeout : Rat) (blockNumber : JSNum)
  | processBytecodeT (timeout : Rat) (creatorTxHash address : String) (retriesLeft : Int)
deriving DecidableEq

/-- ChainMonitor.mySetTimeout: schedule the timer only when the running
flag is set; the check happens at scheduling time. -/
def mySetTimeout (s : ChainState) (t : Timer) : List Timer :=
  if s.running then [t] else []

/-- ChainMonitor.stop: trigger Monitor.Stopped and clear the running flag.
Pending timers are not cancelled. -/
def stop (s : ChainState) : ChainState × List Event :=
  ({ s with running := false }, [Event.stopped (toString s.chainId)])

/-- ChainMonitor.isVerified: the repository lookup is truthy iff the
returned array is non-empty. -/
def isVerified (env : Env) (s : ChainState) (address : String) : Bool :=
  let foundArr := env.checkByChainAndAddress address (toString s.chainId)
  foundArr.length != 0

/-- Entry phase of ChainMonitor.processBytecode, up to issuing the RPC:
the post-decrement guard on retriesLeft returns silently when the
incoming counter is at most zero; otherwise the missing-provider throw is
checked and the getCode call is issued. -/
def processBytecodeCall (providerSet : Bool) (retriesLeft : Int) (address : String) :
    Except String (Option Rpc) :=
  if retriesLeft ≤ 0 then Except.ok none
  else if providerSet then Except.ok (some (Rpc.getCode address))
  else Except.error ("Can\x27t process bytecode. Provider not initialized")

/-- Resolution of a getCode call: the bytecode string, or a transport
error rejecting the promise. -/
inductive CodeResult where
  | code (bytecode : String)
  | rpcError (message : String)
deriving DecidableEq

/-- Observable output of the processBytecode continuation: events fired,
timers scheduled, and source addresses handed to sourceFetcher.assemble. -/
structure BytOut where
  events : List Event
  timers : List Timer
  assembled : List String
deriving DecidableEq

/-- Continuation of ChainMonitor.processBytecode once getCode has
resolved; retriesLeft is the already-decremented counter. An empty-code
"0x" response reschedules the task; otherwise the bytecode is decoded and
handed to the source fetcher, a decode throw firing
Monitor.Error.ProcessingBytecode; a transport error fires
Monitor.Error.GettingBytecode and reschedules the task. -/
def processBytecodeCont (env : Env) (s : ChainState) (creatorTxHash address : String)
    (retriesLeft : Int) (res : CodeResult) : BytOut :=
  match res with
  | CodeResult.code bytecode =>
    if bytecode = "0x" then
      { events := []
        timers := mySetTimeout s
          (Timer.processBytecodeT s.getBytecodeRetryPause creatorTxHash address retriesLeft)
        assembled := [] }
    else
      match env.bytecodeDecode bytecode with
      | Except.error msg =>
        { events := [Event.errorProcessingBytecode msg (toString s.chainId) address]
          timers := []
          assembled := [] }
      | Except.ok cborData =>
        match env.fromCborData cborData with
        | Except.error msg =>
          { events := [Event.errorProcessingBytecode msg (toString s.chainId) address]
            timers := []
            assembled := [] }
        | Except.ok metadataAddress =>
          { events := []
            timers := []
            assembled := [metadataAddress] }
  | CodeResult.rpcError msg =>
    { events := [Event.errorGettingBytecode msg (toString s.chainId) address]
      timers := mySetTimeout s
        (Timer.processBytecodeT s.getBytecodeRetryPause creatorTxHash address retriesLeft)
      assembled := [] }

/-- One full processBytecode attempt: none when the entry phase makes no
RPC call (exhausted counter or missing-provider throw), otherwise the
continuation applied to the decremented counter and the call result. -/
def processBytecodeAttempt (env : Env) (s : ChainState) (creatorTxHash address : String)
    (retriesLeft : Int) (res : CodeResult) : Option BytOut :=
  match processBytecodeCall s.providerSet retriesLeft address with
  | Except.ok (some _) =>
    some (processBytecodeCont env s creatorTxHash address (retriesLeft - 1) res)
  | _ => none

/-- The getCode calls made over a whole retry chain of one BytecodeTask,
driven by the list of successive call resolutions: each attempt issues at
most one call, and the chain continues exactly when the continuation
rescheduled a processBytecode timer. -/
def processBytecodeChain (env : Env) (s : ChainState) :
    String → String → Int → List CodeResult → List Rpc
  | creatorTxHash, address, retriesLeft, outcomes =>
    match processBytecodeCall s.providerSet retriesLeft address with
    | Except.ok (some rpc) =>
      match outcomes with
      | [] => [rpc]
      | res :: rest =>
        match (processBytecodeCont env s creatorTxHash address (retriesLeft - 1) res).timers with
        | [Timer.processBytecodeT _ h a r] => rpc :: processBytecodeChain env s h a r rest
        | _ => [rpc]
    | _ => []

/-- Record of a BytecodeTask being started by processBlock, with the
arguments of the processBytecode invocation. -/
structure TaskStart where
  creatorTxHash : String
  address : String
  retriesLeft : Int
deriving DecidableEq

/-- Observable output of handling one transaction inside processBlock. -/
structure TxOut where
  events : List Event
  signals : List Signal
  tasks : List TaskStart
  rpcCalls : List Rpc
  threw : Bool
deriving DecidableEq

/-- Output of a transaction that is not a contract creation. -/
def emptyTxOut : TxOut :=
  { events := [], signals := [], tasks := [], rpcCalls := [], threw := false }

/-- Handling of one transaction of a block: a contract creation derives
the deployed address; an already-verified address fires
Monitor.AlreadyVerified and the contract-already-verified signal; a new
address fires Monitor.NewContract and invokes processBytecode with the
initial retry budget (whose entry phase may throw when no provider is
set, recorded in threw). -/
def processTx (env : Env) (s : ChainState) (tx : Tx) : TxOut :=
  if createsContract tx then
    let address := env.getCreateAddress tx
    if isVerified env s address then
      { events := [Event.alreadyVerified address (toString s.chainId)]
        signals := [Signal.contractAlreadyVerified s.chainId address]
        tasks := []
        rpcCalls := []
        threw := false }
    else
      { events := [Event.newContract address (toString s.chainId)]
        signals := []
        tasks := [⟨tx.hash, address, s.initialGetBytecodeTries⟩]
        rpcCalls :=
          match processBytecodeCall s.providerSet s.initialGetBytecodeTries address with
          | Except.ok (some rpc) => [rpc]
          | _ => []
        threw :=
          match processBytecodeCall s.providerSet s.initialGetBytecodeTries address with
          | Except.error _ => true
          | _ => false }
  else emptyTxOut

/-- Handling of a block's transaction list in order, stopping early when
an invocation threw (the exception propagates to the promise catch). -/
def processTxs (env : Env) (s : ChainState) : List Tx → TxOut
  | [] => emptyTxOut
  | tx :: rest =>
    let o := processTx env s tx
    if o.threw then o
    else
      let o2 := processTxs env s rest
      { events := o.events ++ o2.events
        signals := o.signals ++ o2.signals
        tasks := o.tasks ++ o2.tasks
        rpcCalls := o.rpcCalls ++ o2.rpcCalls
        threw := o2.threw }

/-- Resolution of a getBlock call: null (not yet mined), a block, or a
rejected promise. -/
inductive BlockResult where
  | nullBlock
  | block (b : Blk)
  | rpcError (message : String)
deriving DecidableEq

/-- Observable output of one processBlock continuation. -/
structure StepOut where
  state : ChainState
  events : List Event
  signals : List Signal
  tasks : List TaskStart
  rpcCalls : List Rpc
  timers : List Timer

/-- Request phase of ChainMonitor.processBlock: throw when no provider is
initialized, otherwise issue getBlock(blockNumber, true). -/
def processBlockRequest (s : ChainState) (blockNumber : JSNum) : Except String Rpc :=
  if s.providerSet then Except.ok (Rpc.getBlock blockNumber)
  else Except.error ("Can\x27t process block " ++ blockNumber.toStr ++
    ". Provider not initialized")

/-- Continuation of ChainMonitor.processBlock once getBlock has resolved.
A null block increases the pause and leaves the cursor unchanged; a block
decreases the pause, fires Monitor.ProcessingBlock, handles every
transaction, and increments the cursor; a rejection fires
Monitor.Error.ProcessingBlock and leaves the cursor unchanged. In every
case the finally clause schedules the next processBlock through
mySetTimeout with the current pause and the possibly-incremented cursor. -/
def processBlockCont (env : Env) (cfg : Config) (s : ChainState) (blockNumber : JSNum)
    (res : BlockResult) : StepOut :=
  match res with
  | BlockResult.nullBlock =>
    let s1 := { s with getBlockPause := adaptBlockPause cfg s.getBlockPause PauseOp.increase }
    { state := s1, events := [], signals := [], tasks := [], rpcCalls := []
      timers := mySetTimeout s1 (Timer.processBlockT s1.getBlockPause blockNumber) }
  | BlockResult.block b =>
    let s1 := { s with getBlockPause := adaptBlockPause cfg s.getBlockPause PauseOp.decrease }
    let header := Event.processingBlock blockNumber (toString s1.chainId) s1.getBlockPause
    let txo := processTxs env s1 b.prefetchedTransactions
    if txo.threw then
      { state := s1
        events := header :: txo.events ++
          [Event.errorProcessingBlock ("Can\x27t process bytecode. Provider not initialized")
            (toString s1.chainId) blockNumber]
        signals := txo.signals, tasks := txo.tasks, rpcCalls := txo.rpcCalls
        timers := mySetTimeout s1 (Timer.processBlockT s1.getBlockPause blockNumber) }
    else
      { state := s1
        events := header :: txo.events
        signals := txo.signals, tasks := txo.tasks, rpcCalls := txo.rpcCalls
        timers := mySetTimeout s1 (Timer.processBlockT s1.getBlockPause blockNumber.succ) }
  | BlockResult.rpcError msg =>
    { state := s
      events := [Event.errorProcessingBlock msg (toString s.chainId) blockNumber]
      signals := [], tasks := [], rpcCalls := []
      timers := mySetTimeout s (Timer.processBlockT s.getBlockPause blockNumber) }

/-- The block numbers requested by the polling loop, in request order,
driven by the list of successive getBlock resolutions: the head request
is in flight, and each later request exists only once the previous
resolution has been consumed and the continuation scheduled the next
processBlock timer. -/
def blockRequestTrace (env : Env) (cfg : Config) :
    ChainState → JSNum → List BlockResult → List JSNum
  | _, n, [] => [n]
  | s, n, res :: rest =>
    let out := processBlockCont env cfg s n res
    match out.timers with
    | [Timer.processBlockT _ m] => n :: blockRequestTrace env cfg out.state m rest
    | _ => [n]

/-- RPC calls a timer's handler performs immediately when it fires: the
handlers themselves do not consult the running flag, so a fired
processBlock timer issues getBlock and a fired processBytecode timer with
a positive counter issues getCode. -/
def timerHandlerRpcs (s : ChainState) : Timer → List Rpc
  | Timer.processBlockT _ blockNumber =>
    match processBlockRequest s blockNumber with
    | Except.ok rpc => [rpc]
    | Except.error _ => []
  | Timer.processBytecodeT _ _ address retriesLeft =>
    match processBytecodeCall s.providerSet retriesLeft address with
    | Except.ok (some rpc) => [rpc]
    | _ => []

/-- Startup environment of ChainMonitor.start: the ordered RPC endpoint
list of the chain descriptor, the outcome of the getBlockNumber probe on
each endpoint, and the raw MONITOR_START_ environment override. -/
structure ProbeEnv where
  rpcUrls : List String
  probeResults : String → Except String Int
  rawStartBlock : Option String

/-- Observable output of ChainMonitor.start: the final state, the events
fired, the logger.info lines, the urls probed in order, and the direct
processBlock invocations. -/
structure StartOut where
  state : ChainState
  events : List Event
  logs : List String
  probes : List String
  processBlockCalls : List JSNum
deriving DecidableEq

/-- Endpoint iteration of ChainMonitor.start: probe each url in order
with getBlockNumber; a failure is logged and the next url tried; the
first success retains the provider, computes the start block (parseInt of
the override when defined, else the probed head), fires Monitor.Started
and invokes processBlock on the start block, breaking the loop; when the
list is exhausted without success, Monitor.Error.CantStart is fired. -/
def startLoop (pe : ProbeEnv) (s : ChainState) : List String → StartOut
  | [] =>
    { state := s
      events := [Event.cantStart (toString s.chainId)
        ("Couldn\x27t find a working RPC node.")]
      logs := [], probes := [], processBlockCalls := [] }
  | url :: rest =>
    match pe.probeResults url with
    | Except.error err =>
      let o := startLoop pe s rest
      { o with
          logs := (url ++ " did not work: \n " ++ err) :: o.logs
          probes := url :: o.probes }
    | Except.ok lastBlockNumber =>
      let startBlock :=
        match pe.rawStartBlock with
        | some raw => parseIntJS raw
        | none => JSNum.num lastBlockNumber
      { state := { s with providerSet := true }
        events := [Event.started (toString s.chainId) url lastBlockNumber startBlock]
        logs := []
        probes := [url]
        processBlockCalls := [startBlock] }

/-- ChainMonitor.start: set the running flag, then iterate over the
endpoints. -/
def startRun (pe : ProbeEnv) (s : ChainState) : StartOut :=
  startLoop pe { s with running := true } pe.rpcUrls

/-- The Monitor supervisor: the ChainMonitors it owns. -/
structure MonitorSup where
  chainMonitors : List ChainState
deriving DecidableEq

/-- Monitor.stop: stop every ChainMonitor in order, then stop the shared
SourceFetcher; the Nat counts the sourceFetcher.stop invocations. -/
def monitorStop (m : MonitorSup) : MonitorSup × List Event × Nat :=
  (⟨m.chainMonitors.map (fun cm => (stop cm).1)⟩,
   (m.chainMonitors.map (fun cm => (stop cm).2)).flatten,
   1)

/-- Concrete collaborator environment used by the witnesses: repository
reports nothing verified, decoding always fails. -/
def envW : Env :=
  { getCreateAddress := fun _ => "0xdeadbeef"
    checkByChainAndAddress := fun _ _ => []
    bytecodeDecode := fun _ => Except.error ("malformed cbor")
    fromCborData := fun c => Except.ok c }

/-- Concrete running ChainMonitor state used by the witnesses. -/
def s0 : ChainState :=
  { chainId := 1
    running := true
    providerSet := true
    getBlockPause := 10000
    getBytecodeRetryPause := 5000
    initialGetBytecodeTries := 3 }

/-- Concrete pending block timer used by the witnesses. -/
def tW : Timer := Timer.processBlockT 10000 (JSNum.num 5)

/-- Concrete startup environment whose single endpoint probe fails. -/
def peF : ProbeEnv :=
  { rpcUrls := ["http://a"]
    probeResults := fun _ => Except.error ("connection refused")
    rawStartBlock := none }

/-- Concrete startup environment with a failing first endpoint and a
working second one. -/
def peW : ProbeEnv :=
  { rpcUrls := ["http://a", "ws://b"]
    probeResults := fun u =>
      if u = "http://a" then Except.error ("connection refused") else Except.ok 100
    rawStartBlock := none }

/-- Concrete startup environment with a non-numeric start override. -/
def peN : ProbeEnv :=
  { rpcUrls := ["http://a"]
    probeResults := fun _ => Except.ok 100
    rawStartBlock := some "not-a-number" }

/-- Concrete idle state as constructed, before start. -/
def sIdle : ChainState :=
  { chainId := 1
    running := false
    providerSet := false
    getBlockPause := 10000
    getBytecodeRetryPause := 5000
    initialGetBytecodeTries := 3 }

/-- With a retained provider, the entry phase of processBytecode never
throws: it either returns silently or issues the getCode call. -/
theorem processBytecodeCall_true (retriesLeft : Int) (address : String) :
    processBytecodeCall true retriesLeft address =
      Except.ok (if retriesLeft ≤ 0 then none else some (Rpc.getCode address)) := by
  unfold processBytecodeCall
  split <;> simp

/-- With a retained provider, handling one transaction never throws. -/
theorem processTx_not_threw (env : Env) (s : ChainState) (tx : Tx)
    (hp : s.providerSet = true) : (processTx env s tx).threw = false := by
  by_cases hc : createsContract tx
  · by_cases hv : isVerified env s (env.getCreateAddress tx)
    · simp [processTx, hc, hv]
    · simp only [processTx, hc, hv, if_true, if_false, hp, processBytecodeCall_true]
      split <;> rfl
  · simp [processTx, hc, emptyTxOut]

/-- With a retained provider, handling a transaction list never throws. -/
theorem processTxs_not_threw (env : Env) (s : ChainState) (txs : List Tx)
    (hp : s.providerSet = true) : (processTxs env s txs).threw = false := by
  induction txs with
  | nil => rfl
  | cons tx rest ih =>
    unfold processTxs
    simp only [processTx_not_threw env s tx hp]
    exact ih

/-- The processBytecode continuation schedules either nothing or exactly
one retry of the same task with the counter it received. -/
theorem processBytecodeCont_timers (env : Env) (s : ChainState)
    (creatorTxHash address : String) (retriesLeft : Int) (res : CodeResult) :
    (processBytecodeCont env s creatorTxHash address retriesLeft res).timers = [] ∨
    (processBytecodeCont env s creatorTxHash address retriesLeft res).timers =
      [Timer.processBytecodeT s.getBytecodeRetryPause creatorTxHash address retriesLeft] := by
  cases res with
  | code bytecode =>
    unfold processBytecodeCont mySetTimeout
    dsimp only
    split
    · split
      · exact Or.inr rfl
      · exact Or.inl rfl
    · split
      · exact Or.inl rfl
      · split
        · exact Or.inl rfl
        · exact Or.inl rfl
  | rpcError msg =>
    unfold processBytecodeCont mySetTimeout
    dsimp only
    split
    · exact Or.inr rfl
    · exact Or.inl rfl

/-- C7: after every adaptBlockPause update, whether increasing by the
pause factor or decreasing by its reciprocal, the resulting pause lies in
the interval between the lower and upper pause limits (assuming the
configured lower limit does not exceed the upper limit, as with the
defaults 500 and 30000). -/
theorem C7_adaptBlockPause_clamped (cfg : Config) (pause : Rat) (op : PauseOp)
    (h : cfg.blockPauseLowerLimit ≤ cfg.blockPauseUpperLimit) :
    cfg.blockPauseLowerLimit ≤ adaptBlockPause cfg pause op ∧
      adaptBlockPause cfg pause op ≤ cfg.blockPauseUpperLimit := by
  unfold adaptBlockPause
  exact ⟨le_max_right _ _, max_le (min_le_right _ _) h⟩

/-- Witness for C7 at the default configuration: increasing the initial
10000 ms pause keeps the pause within the interval. -/
theorem C7_witness :
    defaultConfig.blockPauseLowerLimit ≤ adaptBlockPause defaultConfig 10000 PauseOp.increase ∧
      adaptBlockPause defaultConfig 10000 PauseOp.increase ≤
        defaultConfig.blockPauseUpperLimit :=
  C7_adaptBlockPause_clamped defaultConfig 10000 PauseOp.increase (by norm_num [defaultConfig])

/-- C1: for a processBlock invocation on cursor n of a running monitor
with a retained provider, a null or rejected getBlock resolution
reschedules processBlock for the same cursor n, and a non-null block
reschedules it for n + 1; moreover the trace of requested block numbers
satisfies that the request after consuming one resolution is exactly the
cursor determined by that resolution, so the next block is never
requested before the previous request has resolved. -/
theorem C1_processBlock_cursor (env : Env) (cfg : Config) (s : ChainState) (n : JSNum)
    (hrun : s.running = true) (hp : s.providerSet = true) :
    (∀ res : BlockResult,
      (processBlockCont env cfg s n res).timers =
        [Timer.processBlockT (processBlockCont env cfg s n res).state.getBlockPause
          (match res with
            | BlockResult.block _ => n.succ
            | _ => n)]) ∧
    (∀ (res : BlockResult) (rest : List BlockResult),
      blockRequestTrace env cfg s n (res :: rest) =
        n :: blockRequestTrace env cfg (processBlockCont env cfg s n res).state
          (match res with
            | BlockResult.block _ => n.succ
            | _ => n) rest) := by
  have htimers : ∀ res : BlockResult,
      (processBlockCont env cfg s n res).timers =
        [Timer.processBlockT (processBlockCont env cfg s n res).state.getBlockPause
          (match res with
            | BlockResult.block _ => n.succ
            | _ => n)] := by
    intro res
    cases res with
    | nullBlock =>
      unfold processBlockCont mySetTimeout
      simp [hrun]
    | block b =>
      unfold processBlockCont mySetTimeout
      dsimp only
      rw [processTxs_not_threw env
        { s with getBlockPause := adaptBlockPause cfg s.getBlockPause PauseOp.decrease }
        b.prefetchedTransactions hp]
      simp [hrun]
    | rpcError msg =>
      unfold processBlockCont mySetTimeout
      simp [hrun]
  refine ⟨htimers, ?_⟩
  intro res rest
  have heq : blockRequestTrace env cfg s n (res :: rest) =
      (match (processBlockCont env cfg s n res).timers with
        | [Timer.processBlockT _ m] =>
          n :: blockRequestTrace env cfg (processBlockCont env cfg s n res).state m rest
        | _ => [n]) := rfl
  rw [heq, htimers res]

/-- Witness for C1: at the concrete running state, a null block at cursor
100 reschedules processBlock for cursor 100. -/
theorem C1_witness :
    (processBlockCont envW defaultConfig s0 (JSNum.num 100) BlockResult.nullBlock).timers =
      [Timer.processBlockT
        (processBlockCont envW defaultConfig s0 (JSNum.num 100)
          BlockResult.nullBlock).state.getBlockPause
        (JSNum.num 100)] :=
  (C1_processBlock_cursor envW defaultConfig s0 (JSNum.num 100) rfl rfl).1
    BlockResult.nullBlock

/-- Case analysis of the entry phase of processBytecode: an exhausted
counter returns silently, a positive counter with a provider issues the
call, and a positive counter without a provider throws. -/
theorem processBytecodeCall_cases (ps : Bool) (r : Int) (addr : String) :
    (r ≤ 0 ∧ processBytecodeCall ps r addr = Except.ok none) ∨
    (0 < r ∧ ps = true ∧
      processBytecodeCall ps r addr = Except.ok (some (Rpc.getCode addr))) ∨
    (0 < r ∧ ps = false ∧ ∃ e, processBytecodeCall ps r addr = Except.error e) := by
  unfold processBytecodeCall
  by_cases h0 : r ≤ 0
  · left
    exact ⟨h0, by rw [if_pos h0]⟩
  · cases ps
    · right; right
      refine ⟨by omega, rfl, ("Can\x27t process bytecode. Provider not initialized"), ?_⟩
      rw [if_neg h0]
      rfl
    · right; left
      exact ⟨by omega, rfl, by rw [if_neg h0]; rfl⟩

/-- C3: a BytecodeTask started with retry budget k makes at most k getCode
calls over its whole retry chain, whatever the successive call
resolutions are; and an invocation reached with a counter of zero or less
issues no RPC call and returns silently. -/
theorem C3_bytecode_retry_budget (env : Env) (s : ChainState)
    (creatorTxHash address : String) (retriesLeft : Int) (outcomes : List CodeResult) :
    (processBytecodeChain env s creatorTxHash address retriesLeft outcomes).length ≤
      retriesLeft.toNat ∧
    (retriesLeft ≤ 0 →
      processBytecodeChain env s creatorTxHash address retriesLeft outcomes = [] ∧
      processBytecodeCall s.providerSet retriesLeft address = Except.ok none) := by
  have hlen : ∀ (outs : List CodeResult) (tx addr : String) (r : Int),
      (processBytecodeChain env s tx addr r outs).length ≤ r.toNat := by
    intro outs
    induction outs with
    | nil =>
      intro tx addr r
      unfold processBytecodeChain
      rcases processBytecodeCall_cases s.providerSet r addr with
        ⟨h0, hc⟩ | ⟨h0, _, hc⟩ | ⟨h0, _, e, hc⟩
      · rw [hc]
        simp
      · rw [hc]
        simp only [List.length_singleton]
        omega
      · rw [hc]
        simp
    | cons res rest ih =>
      intro tx addr r
      unfold processBytecodeChain
      rcases processBytecodeCall_cases s.providerSet r addr with
        ⟨h0, hc⟩ | ⟨h0, _, hc⟩ | ⟨h0, _, e, hc⟩
      · rw [hc]
        simp
      · rw [hc]
        dsimp only
        rcases processBytecodeCont_timers env s tx addr (r - 1) res with ht | ht
        · rw [ht]
          simp only [List.length_singleton]
          omega
        · rw [ht]
          have hr := ih tx addr (r - 1)
          simp only [List.length_cons]
          omega
      · rw [hc]
        simp
  refine ⟨hlen outcomes creatorTxHash address retriesLeft, ?_⟩
  intro h0
  have hcall : processBytecodeCall s.providerSet retriesLeft address = Except.ok none := by
    unfold processBytecodeCall
    rw [if_pos h0]
  refine ⟨?_, hcall⟩
  unfold processBytecodeChain
  rw [hcall]

/-- Witness for C3: a task reached with a zero counter makes no getCode
call and its chain is empty. -/
theorem C3_witness :
    processBytecodeChain envW s0 ("0xtx") ("0xaddr") 0 [] = [] ∧
      processBytecodeCall s0.providerSet 0 ("0xaddr") = Except.ok none :=
  (C3_bytecode_retry_budget envW s0 ("0xtx") ("0xaddr") 0 []).2 (le_refl 0)

/-- Concrete contract-creating transaction used by the witnesses. -/
def txW : Tx := { toField := none, hash := "0xhash" }

/-- C5: for a contract-creating transaction handled by processBlock of a
monitor with a retained provider: when the repository lookup for the
derived address returns a non-empty list, Monitor.AlreadyVerified is
fired together with the contract-already-verified signal and no getCode
call is made and no BytecodeTask started; otherwise Monitor.NewContract
is fired and a BytecodeTask is started with the initial retry budget. -/
theorem C5_creation_tx_handling (env : Env) (s : ChainState) (tx : Tx)
    (hcreate : tx.toField = none) (hp : s.providerSet = true) :
    ((env.checkByChainAndAddress (env.getCreateAddress tx) (toString s.chainId)).length ≠ 0 →
      processTx env s tx =
        { events := [Event.alreadyVerified (env.getCreateAddress tx) (toString s.chainId)]
          signals := [Signal.contractAlreadyVerified s.chainId (env.getCreateAddress tx)]
          tasks := []
          rpcCalls := []
          threw := false }) ∧
    ((env.checkByChainAndAddress (env.getCreateAddress tx) (toString s.chainId)).length = 0 →
      processTx env s tx =
        { events := [Event.newContract (env.getCreateAddress tx) (toString s.chainId)]
          signals := []
          tasks := [⟨tx.hash, env.getCreateAddress tx, s.initialGetBytecodeTries⟩]
          rpcCalls :=
            if s.initialGetBytecodeTries ≤ 0 then []
            else [Rpc.getCode (env.getCreateAddress tx)]
          threw := false }) := by
  constructor
  · intro hv
    have hb : isVerified env s (env.getCreateAddress tx) = true := by
      simp [isVerified, hv]
    simp [processTx, createsContract, hcreate, hb]
  · intro hv
    have hb : isVerified env s (env.getCreateAddress tx) = false := by
      simp [isVerified, hv]
    by_cases ht : s.initialGetBytecodeTries ≤ 0
    · simp [processTx, createsContract, hcreate, hb, hp, processBytecodeCall_true, ht]
    · simp [processTx, createsContract, hcreate, hb, hp, processBytecodeCall_true, ht]

/-- Witness for C5: with a repository that reports nothing verified, the
concrete creation transaction yields Monitor.NewContract and a
BytecodeTask with the initial budget of three tries. -/
theorem C5_witness :
    processTx envW s0 txW =
      { events := [Event.newContract (envW.getCreateAddress txW) (toString s0.chainId)]
        signals := []
        tasks := [⟨txW.hash, envW.getCreateAddress txW, s0.initialGetBytecodeTries⟩]
        rpcCalls :=
          if s0.initialGetBytecodeTries ≤ 0 then []
          else [Rpc.getCode (envW.getCreateAddress txW)]
        threw := false } :=
  (C5_creation_tx_handling envW s0 txW rfl rfl).2 rfl

/-- C6: for an attempt of processBytecode that makes its getCode call (a
positive counter, retained provider, running monitor): a "0x" response
reschedules the same task after the bytecode retry pause with the
decremented counter; a non-"0x" response failing the CBOR decode fires
Monitor.Error.ProcessingBytecode and schedules no retry; a transport
error fires Monitor.Error.GettingBytecode and reschedules the task after
the retry pause with the decremented counter. -/
theorem C6_bytecode_attempt_outcomes (env : Env) (s : ChainState)
    (creatorTxHash address : String) (retriesLeft : Int)
    (hrun : s.running = true) (hp : s.providerSet = true) (hr : 1 ≤ retriesLeft) :
    (processBytecodeAttempt env s creatorTxHash address retriesLeft
        (CodeResult.code ("0x")) =
      some { events := []
             timers := [Timer.processBytecodeT s.getBytecodeRetryPause creatorTxHash address
               (retriesLeft - 1)]
             assembled := [] }) ∧
    (∀ bytecode msg, bytecode ≠ "0x" → env.bytecodeDecode bytecode = Except.error msg →
      processBytecodeAttempt env s creatorTxHash address retriesLeft
          (CodeResult.code bytecode) =
        some { events := [Event.errorProcessingBytecode msg (toString s.chainId) address]
               timers := []
               assembled := [] }) ∧
    (∀ msg,
      processBytecodeAttempt env s creatorTxHash address retriesLeft
          (CodeResult.rpcError msg) =
        some { events := [Event.errorGettingBytecode msg (toString s.chainId) address]
               timers := [Timer.processBytecodeT s.getBytecodeRetryPause creatorTxHash address
                 (retriesLeft - 1)]
               assembled := [] }) := by
  have hcall : processBytecodeCall s.providerSet retriesLeft address =
      Except.ok (some (Rpc.getCode address)) := by
    rw [hp, processBytecodeCall_true, if_neg (by omega)]
  refine ⟨?_, ?_, ?_⟩
  · simp [processBytecodeAttempt, hcall, processBytecodeCont, mySetTimeout, hrun]
  · intro bytecode msg hne hdec
    simp [processBytecodeAttempt, hcall, processBytecodeCont, hne, hdec]
  · intro msg
    simp [processBytecodeAttempt, hcall, processBytecodeCont, mySetTimeout, hrun]

/-- Witness for C6: at the concrete running state, a transport error on
the getCode call of a task with three tries left fires
Monitor.Error.GettingBytecode and reschedules the task with two tries. -/
theorem C6_witness :
    processBytecodeAttempt envW s0 ("0xtx") ("0xaddr") 3 (CodeResult.rpcError ("boom")) =
      some { events := [Event.errorGettingBytecode ("boom") (toString s0.chainId) ("0xaddr")]
             timers := [Timer.processBytecodeT s0.getBytecodeRetryPause ("0xtx") ("0xaddr")
               (3 - 1)]
             assembled := [] } :=
  (C6_bytecode_attempt_outcomes envW s0 ("0xtx") ("0xaddr") 3 rfl rfl
    (by norm_num)).2.2 ("boom")

/-- C4: the endpoint iteration of start: a failing probe is logged and
the iteration continues with the remaining endpoints unchanged (never
throwing); the first successful probe retains the provider, computes the
start block from the override when set else the probed head, fires
Monitor.Started and begins processing that block; exhausting all
endpoints fires Monitor.Error.CantStart and starts no polling; and start
itself is the iteration over the chain descriptor's endpoint list with
the running flag set. -/
theorem C4_start_endpoint_iteration (pe : ProbeEnv) (s : ChainState)
    (url : String) (rest : List String) :
    (∀ err, pe.probeResults url = Except.error err →
      startLoop pe s (url :: rest) =
        { startLoop pe s rest with
            logs := (url ++ " did not work: \n " ++ err) :: (startLoop pe s rest).logs
            probes := url :: (startLoop pe s rest).probes }) ∧
    (∀ lastBlockNumber : Int, pe.probeResults url = Except.ok lastBlockNumber →
      startLoop pe s (url :: rest) =
        { state := { s with providerSet := true }
          events := [Event.started (toString s.chainId) url lastBlockNumber
            (match pe.rawStartBlock with
              | some raw => parseIntJS raw
              | none => JSNum.num lastBlockNumber)]
          logs := []
          probes := [url]
          processBlockCalls := [match pe.rawStartBlock with
            | some raw => parseIntJS raw
            | none => JSNum.num lastBlockNumber] }) ∧
    (startLoop pe s [] =
      { state := s
        events := [Event.cantStart (toString s.chainId)
          ("Couldn\x27t find a working RPC node.")]
        logs := []
        probes := []
        processBlockCalls := [] }) ∧
    (startRun pe s = startLoop pe { s with running := true } pe.rpcUrls) := by
  refine ⟨?_, ?_, rfl, rfl⟩
  · intro err herr
    simp only [startLoop, herr]
  · intro lastBlockNumber hok
    simp only [startLoop, hok]

/-- Witness for C4: the first endpoint of the concrete two-endpoint chain
fails its probe, so start logs the failure and continues with the second
endpoint. -/
theorem C4_witness :
    startLoop peW sIdle (("http://a") :: ["ws://b"]) =
      { startLoop peW sIdle ["ws://b"] with
          logs := ("http://a" ++ " did not work: \n " ++ "connection refused") ::
            (startLoop peW sIdle ["ws://b"]).logs
          probes := "http://a" :: (startLoop peW sIdle ["ws://b"]).probes } :=
  (C4_start_endpoint_iteration peW sIdle ("http://a") ["ws://b"]).1
    ("connection refused") rfl

/-- C10: when the MONITOR_START_ override is a defined string, start uses
parseInt of that string as the start block with no validation and no
fallback to the probed head; Monitor.Started is emitted with that value
and block processing begins on it, and parseInt of a non-numeric string
is NaN. -/
theorem C10_start_override_unvalidated (pe : ProbeEnv) (s : ChainState)
    (url : String) (rest : List String) (raw : String) (lastBlockNumber : Int)
    (hov : pe.rawStartBlock = some raw)
    (hprobe : pe.probeResults url = Except.ok lastBlockNumber) :
    (startLoop pe s (url :: rest)).events =
      [Event.started (toString s.chainId) url lastBlockNumber (parseIntJS raw)] ∧
    (startLoop pe s (url :: rest)).processBlockCalls = [parseIntJS raw] ∧
    parseIntJS ("not-a-number") = JSNum.nan := by
  refine ⟨?_, ?_, rfl⟩
  · simp only [startLoop, hprobe, hov]
  · simp only [startLoop, hprobe, hov]

/-- Witness for C10: with the override set to the non-numeric string
"not-a-number", Monitor.Started fires with start block NaN and
processBlock is invoked on NaN. -/
theorem C10_witness :
    (startLoop peN sIdle (("http://a") :: [])).events =
      [Event.started (toString sIdle.chainId) ("http://a") 100
        (parseIntJS ("not-a-number"))] ∧
    (startLoop peN sIdle (("http://a") :: [])).processBlockCalls =
      [parseIntJS ("not-a-number")] ∧
    parseIntJS ("not-a-number") = JSNum.nan :=
  C10_start_override_unvalidated peN sIdle ("http://a") [] ("not-a-number") 100 rfl rfl

/-- C8 counterexample: when the only endpoint probe of the concrete
startup environment fails, start emits Monitor.Error.CantStart and starts
no block processing, but the monitor IS left marked running (the running
flag, set at the top of start, is never cleared on the failure path),
contradicting the claim that it is not marked running. -/
theorem C8_counterexample :
    (startRun peF sIdle).state.running = true ∧
    (startRun peF sIdle).events =
      [Event.cantStart (toString sIdle.chainId) ("Couldn\x27t find a working RPC node.")] ∧
    (startRun peF sIdle).processBlockCalls = [] :=
  ⟨rfl, rfl, rfl⟩

/-- C8 amended: if every endpoint probe fails, start emits
Monitor.Error.CantStart, retains no provider and schedules no block
processing (the monitor stays idle), but the running flag remains set to
true rather than returning to a stopped state. -/
theorem C8_all_probes_fail (pe : ProbeEnv) (s : ChainState)
    (hfail : ∀ url ∈ pe.rpcUrls, ∃ e, pe.probeResults url = Except.error e) :
    (startRun pe s).state.running = true ∧
    (startRun pe s).state.providerSet = s.providerSet ∧
    (startRun pe s).events =
      [Event.cantStart (toString s.chainId) ("Couldn\x27t find a working RPC node.")] ∧
    (startRun pe s).processBlockCalls = [] := by
  have key : ∀ (urls : List String) (st : ChainState),
      (∀ url ∈ urls, ∃ e, pe.probeResults url = Except.error e) →
      (startLoop pe st urls).state = st ∧
      (startLoop pe st urls).events =
        [Event.cantStart (toString st.chainId) ("Couldn\x27t find a working RPC node.")] ∧
      (startLoop pe st urls).processBlockCalls = [] := by
    intro urls
    induction urls with
    | nil =>
      intro st _
      exact ⟨rfl, rfl, rfl⟩
    | cons url rest ih =>
      intro st hf
      obtain ⟨e, he⟩ := hf url (List.mem_cons_self url rest)
      have hrest := ih st (fun u hu => hf u (List.mem_cons_of_mem url hu))
      simp only [startLoop, he]
      exact hrest
  have h := key pe.rpcUrls { s with running := true } hfail
  refine ⟨?_, ?_, ?_, h.2.2⟩
  · show (startLoop pe { s with running := true } pe.rpcUrls).state.running = true
    rw [h.1]
  · show (startLoop pe { s with running := true } pe.rpcUrls).state.providerSet = s.providerSet
    rw [h.1]
  · exact h.2.1

/-- Witness for C8: the amended statement at the concrete
single-endpoint environment whose probe fails. -/
theorem C8_witness :
    (startRun peF sIdle).state.running = true ∧
    (startRun peF sIdle).state.providerSet = sIdle.providerSet ∧
    (startRun peF sIdle).events =
      [Event.cantStart (toString sIdle.chainId) ("Couldn\x27t find a working RPC node.")] ∧
    (startRun peF sIdle).processBlockCalls = [] :=
  C8_all_probes_fail peF sIdle (fun _ _ => ⟨"connection refused", rfl⟩)

/-- C2 counterexample: a timer scheduled while the monitor is running
(the schedule-time running check passes) is not cancelled by stop: after
stop has returned, firing that timer still runs its handler, and the
handler performs a getBlock RPC call, contradicting the claim that no
timer scheduled before stop fires its handler or performs an RPC call
after stop. -/
theorem C2_counterexample :
    mySetTimeout s0 tW = [tW] ∧
    (stop s0).1.running = false ∧
    timerHandlerRpcs (stop s0).1 tW = [Rpc.getBlock (JSNum.num 5)] :=
  ⟨rfl, rfl, rfl⟩

/-- C2 amended: after stop, no NEW timer can be scheduled (mySetTimeout
is a no-op on a non-running monitor) and a fired handler's continuation
schedules no further timer; but a timer that was already scheduled before
stop does fire its handler, which may still perform one RPC call, since
the running flag is checked at scheduling time only. -/
theorem C2_no_new_schedules_after_stop (env : Env) (cfg : Config) (s : ChainState)
    (hstop : s.running = false) :
    (∀ t, mySetTimeout s t = []) ∧
    (∀ (n : JSNum) (res : BlockResult), (processBlockCont env cfg s n res).timers = []) ∧
    (∀ (creatorTxHash address : String) (retriesLeft : Int) (res : CodeResult),
      (processBytecodeCont env s creatorTxHash address retriesLeft res).timers = []) := by
  refine ⟨fun t => by simp [mySetTimeout, hstop], ?_, ?_⟩
  · intro n res
    cases res with
    | nullBlock => simp [processBlockCont, mySetTimeout, hstop]
    | block b =>
      unfold processBlockCont
      dsimp only
      split <;> simp [mySetTimeout, hstop]
    | rpcError msg => simp [processBlockCont, mySetTimeout, hstop]
  · intro creatorTxHash address retriesLeft res
    cases res with
    | code bytecode =>
      unfold processBytecodeCont
      dsimp only
      split
      · simp [mySetTimeout, hstop]
      · cases henv : env.bytecodeDecode bytecode with
        | error m => simp [henv]
        | ok c =>
          cases hcc : env.fromCborData c with
          | error m => simp [henv, hcc]
          | ok a => simp [henv, hcc]
    | rpcError m => simp [processBytecodeCont, mySetTimeout, hstop]

/-- Witness for C2 amended: after stopping the concrete running state,
scheduling is suppressed and both continuations schedule nothing. -/
theorem C2_witness :
    mySetTimeout (stop s0).1 tW = [] ∧
    (processBlockCont envW defaultConfig (stop s0).1 (JSNum.num 5)
      BlockResult.nullBlock).timers = [] ∧
    (processBytecodeCont envW (stop s0).1 ("0xtx") ("0xaddr") 2
      (CodeResult.code ("0x"))).timers = [] := by
  have h := C2_no_new_schedules_after_stop envW defaultConfig (stop s0).1 rfl
  exact ⟨h.1 tW, h.2.1 (JSNum.num 5) BlockResult.nullBlock,
    h.2.2 ("0xtx") ("0xaddr") 2 (CodeResult.code ("0x"))⟩

/-- C9 counterexample: the second stop call is not effect-free: it emits
Monitor.Stopped again, so its observable effects add a duplicate event
beyond the first call, contradicting the claim that the second call adds
nothing. -/
theorem C9_counterexample :
    (stop (stop s0).1).2 = [Event.stopped (toString s0.chainId)] ∧
    (stop (stop s0).1).2 ≠ [] :=
  ⟨rfl, by simp [stop]⟩

/-- C9 amended: calling stop twice yields the same state as calling it
once, on a ChainMonitor and on the Monitor supervisor alike, but each
call re-emits Monitor.Stopped per chain (and the supervisor re-invokes
the source fetcher stop), so the second call duplicates the first call's
observable effects instead of adding nothing. -/
theorem C9_stop_idempotent_on_state (s : ChainState) (m : MonitorSup) :
    (stop (stop s).1).1 = (stop s).1 ∧
    (stop (stop s).1).2 = (stop s).2 ∧
    (monitorStop (monitorStop m).1).1 = (monitorStop m).1 ∧
    (monitorStop (monitorStop m).1).2.1 = (monitorStop m).2.1 ∧
    (monitorStop (monitorStop m).1).2.2 = (monitorStop m).2.2 := by
  refine ⟨rfl, rfl, ?_, ?_, rfl⟩
  · simp only [monitorStop]
    congr 1
    rw [List.map_map]
    rfl
  · simp only [monitorStop]
    rw [List.map_map]
    rfl

end Monitor
